import Mathlib

/-!
Verification of the WFG-Agent pipeline (YouTrack workflow generator).

Shallow embedding of the Python sources under `src/src/main/python/agent/`.
Python strings are modelled as `List Char` (`PyStr`); `str.lower` as
`Char.toLower` (ASCII, as in the texts at hand), `str.strip` as dropping the
six ASCII whitespace characters on both ends, `str.split("\n")` as `splitNl`,
no-argument `str.split()` as `pyWords`, and the substring test `in` as
`containsSub`.  External effects (LLM calls, the human answering questions,
the `node --check` subprocess) are modelled as oracle functions passed in as
parameters; everything the repository itself computes is translated directly
from the source.
-/

abbrev PyStr := List Char

/-- Model of Python `str.lower` (ASCII case folding). -/
def pyLower (s : PyStr) : PyStr := s.map Char.toLower

/-- The characters Python's default `str.strip`/`str.split` treat as
whitespace: space, tab, newline, carriage return, vertical tab, form feed. -/
def isSpaceChar (c : Char) : Bool :=
  c = ' ' || c = '\t' || c = '\n' || c = '\r' || c = Char.ofNat 11 || c = Char.ofNat 12

/-- Model of Python `str.strip()` (both ends). -/
def pyStrip (s : PyStr) : PyStr :=
  ((s.dropWhile isSpaceChar).reverse.dropWhile isSpaceChar).reverse

/-- Model of Python `str.split("\n")`: `splitNl [] = [[]]`, exactly as
`"".split("\n") == [""]`. -/
def splitNl : PyStr → List PyStr
  | [] => [[]]
  | c :: r =>
    let rest := splitNl r
    if c = '\n' then [] :: rest
    else
      match rest with
      | [] => [[c]]
      | l :: ls => (c :: l) :: ls

/-- Helper for `pyWords`: `cur` is the current word, reversed. -/
def pyWordsAux : PyStr → PyStr → List PyStr
  | cur, [] => if cur = [] then [] else [cur.reverse]
  | cur, c :: r =>
    if isSpaceChar c then
      if cur = [] then pyWordsAux [] r else cur.reverse :: pyWordsAux [] r
    else pyWordsAux (c :: cur) r

/-- Model of Python's no-argument `str.split()`: words separated by runs of
whitespace, no empty words. -/
def pyWords (s : PyStr) : List PyStr := pyWordsAux [] s

/-- Model of Python `str.startswith(pat)`. -/
def isPre : PyStr → PyStr → Bool
  | [], _ => true
  | _ :: _, [] => false
  | p :: ps, c :: cs => p == c && isPre ps cs

/-- Model of Python's substring test `pat in s` (`"" in s` is `True`). -/
def containsSub (pat : PyStr) : PyStr → Bool
  | [] => isPre pat []
  | c :: r => isPre pat (c :: r) || containsSub pat r

/-- The tail after the first occurrence of `sep`: with `sep` present,
`(afterFirst sep s).getD []` is Python's `s.split(sep, 1)[1]`. -/
def afterFirst (sep : PyStr) : PyStr → Option PyStr
  | [] => none
  | c :: r =>
    if isPre sep (c :: r) then some ((c :: r).drop sep.length)
    else afterFirst sep r

/-- Model of Python `sep.join(parts)`. -/
def joinWith (sep : PyStr) : List PyStr → PyStr
  | [] => []
  | [x] => x
  | x :: y :: r => x ++ sep ++ joinWith sep (y :: r)

/-- Appends `suffix` to the last element, if any: Python `xs[-1] += suffix`
under the source's `if result["steps"]:` guard, so an empty list stays empty. -/
def addToLast : List PyStr → PyStr → List PyStr
  | [], _ => []
  | [x], s => [x ++ s]
  | x :: y :: r, s => x :: addToLast (y :: r) s

/-! ## LLM call results (`tools/llm_request.py`)

`LLMRequestTool.execute` (lines 38-130) catches every exception and always
returns a dict; its observable shape is `success`, plus `content` on success
and `error` on failure.  The network call itself is external, so the tool is
modelled as an oracle `PyStr → LLMResult`. -/

structure LLMResult where
  success : Bool
  content : PyStr
  error : PyStr
deriving DecidableEq

/-! ## Chain-of-thought strategy (`strategies/cot.py`) -/

/-- Parse result of `_parse_cot_result` plus the `prompt`/`raw_content`/`error`
keys `execute` adds around it.  Keys absent in a given Python branch are
modelled as `[]`. -/
structure CotResult where
  success : Bool
  error : PyStr
  prompt : PyStr
  rawContent : PyStr
  reasoning : PyStr
  steps : List PyStr
  missingInformation : List PyStr
  ambiguities : List PyStr
  needsClarification : Bool
deriving DecidableEq

/-- The `current_section` variable of `_parse_cot_result`. -/
inductive CotSection
  | nosec | reasoning | steps | missingInfo | ambiguities
deriving DecidableEq

/-- One iteration of the line loop of `_parse_cot_result` (cot.py 129-184). -/
def cotStep (st : CotResult × CotSection) (rawLine : PyStr) : CotResult × CotSection :=
  let r := st.1
  let sec := st.2
  let line := pyStrip rawLine
  if line = [] then st
  else if isPre "reasoning:".data (pyLower line) then
    ({ r with reasoning := pyStrip (line.drop 10) }, CotSection.reasoning)
  else if isPre "steps:".data (pyLower line) then (r, CotSection.steps)
  else if isPre "missing information:".data (pyLower line) then (r, CotSection.missingInfo)
  else if isPre "ambiguities:".data (pyLower line) then (r, CotSection.ambiguities)
  else if isPre "needs clarification:".data (pyLower line) then
    let value := pyLower (pyStrip (line.drop 20))
    ({ r with needsClarification := isPre "yes".data value }, CotSection.nosec)
  else
    match sec with
    | CotSection.nosec => st
    | CotSection.reasoning => ({ r with reasoning := r.reasoning ++ '\n' :: line }, sec)
    | CotSection.steps =>
      if line.headD ' ' |>.isDigit then
        if containsSub ". ".data line then
          ({ r with steps := r.steps ++ [(afterFirst ". ".data line).getD []] }, sec)
        else ({ r with steps := addToLast r.steps (' ' :: line) }, sec)
      else ({ r with steps := addToLast r.steps (' ' :: line) }, sec)
    | CotSection.missingInfo =>
      if isPre "- ".data line || isPre "* ".data line || isPre "• ".data line then
        ({ r with missingInformation := r.missingInformation ++ [pyStrip (line.drop 2)] }, sec)
      else if (line.headD ' ' |>.isDigit) && containsSub ". ".data line then
        ({ r with missingInformation :=
            r.missingInformation ++ [(afterFirst ". ".data line).getD []] }, sec)
      else ({ r with missingInformation := r.missingInformation ++ [line] }, sec)
    | CotSection.ambiguities =>
      if isPre "- ".data line || isPre "* ".data line || isPre "• ".data line then
        ({ r with ambiguities := r.ambiguities ++ [pyStrip (line.drop 2)] }, sec)
      else if (line.headD ' ' |>.isDigit) && containsSub ". ".data line then
        ({ r with ambiguities := r.ambiguities ++ [(afterFirst ". ".data line).getD []] }, sec)
      else ({ r with ambiguities := r.ambiguities ++ [line] }, sec)

/-- The initial `result` dict of `_parse_cot_result` (cot.py 114-121). -/
def cotInit : CotResult :=
  { success := true, error := [], prompt := [], rawContent := [],
    reasoning := [], steps := [], missingInformation := [],
    ambiguities := [], needsClarification := false }

/-- The post-hoc override of cot.py 187-188: `needs_clarification` is forced
true whenever either list is non-empty (Python truthiness `or`). -/
def cotPostClarification (r : CotResult) : CotResult :=
  if r.missingInformation ≠ [] ∨ r.ambiguities ≠ [] then
    { r with needsClarification := true }
  else r

/-- `_parse_cot_result` (cot.py 103-190): fold the line loop over the split
content, then the post-hoc override of `needs_clarification`. -/
def parseCot (content : PyStr) : CotResult :=
  cotPostClarification (((splitNl content).foldl cotStep (cotInit, CotSection.nosec)).1)

/-- The fixed text of `_create_cot_prompt` before the embedded request
(cot.py 79-82; the f-string opens with a newline and quotes the request). -/
def cotPromptPre : PyStr := "
I need to generate a YouTrack workflow script based on the following request:

\"".data

/-- The fixed text of `_create_cot_prompt` after the embedded request
(cot.py 82-101). -/
def cotPromptPost : PyStr := "\"

Before I start coding, I want to think through this problem step by step to make sure I understand the requirements and identify any missing information or ambiguities.

Please help me with a chain-of-thought reasoning process by:

1. Analyzing what the user is asking for in terms of a YouTrack workflow script
2. Breaking down the problem into smaller steps
3. Identifying the key components needed (fields, conditions, actions, etc.)
4. Noting any missing information that I would need to ask the user about
5. Highlighting any ambiguities in the request
6. Determining if clarification is needed before proceeding

Format your response with these sections:
- Reasoning: Your step-by-step analysis of the request
- Steps: A numbered list of steps to implement the workflow script
- Missing Information: A list of any information that's missing from the request
- Ambiguities: A list of any ambiguous aspects of the request
- Needs Clarification: Yes/No - whether I should ask for clarification before proceeding
".data

/-- `_create_cot_prompt` (cot.py 69-101). -/
def createCotPrompt (prompt : PyStr) : PyStr := cotPromptPre ++ prompt ++ cotPromptPost

/-- `ChainOfThoughtStrategy.execute` (cot.py 30-67).  The LLM call is the
oracle `llm`; on failure the strategy returns the fixed default record of
lines 58-67 and never raises. -/
def cotExecute (llm : PyStr → LLMResult) (prompt : PyStr) : CotResult :=
  let result := llm (createCotPrompt prompt)
  if result.success then
    let parsed := parseCot result.content
    { parsed with prompt := prompt, rawContent := result.content }
  else
    { success := false, error := result.error, prompt := prompt, rawContent := [],
      reasoning := [], steps := [], missingInformation := [], ambiguities := [],
      needsClarification := true }

/-! ## Clarification fold-back (`agent.py` 154-200) -/

/-- One question/answer pair of the clarification responses dict; the dict is
keyed `question_1`, `question_2`, … in insertion order, modelled as a list. -/
structure QA where
  question : PyStr
  answer : PyStr
deriving DecidableEq

/-- The substantive-answer test of agent.py line 190:
`len(answer.strip()) > 3 and not answer.lower() in ["yes", "no", "none", "n/a"]`.
Note the stoplist comparison is on the lowercased but *unstripped* answer. -/
def isSubstantive (answer : PyStr) : Bool :=
  decide (3 < (pyStrip answer).length) &&
    !([("yes".data : PyStr), "no".data, "none".data, "n/a".data].contains (pyLower answer))

/-- The loop of `_update_prompt_with_clarification` (agent.py 185-193):
threads the accumulated clarification text and the
`has_substantive_response` flag. -/
def clarLoop : List QA → PyStr → Bool → PyStr × Bool
  | [], text, has => (text, has)
  | qa :: rest, text, has =>
    let has := if isSubstantive qa.answer then true else has
    clarLoop rest
      (text ++ "Q: ".data ++ qa.question ++ "\nA: ".data ++ qa.answer ++ "\n\n".data) has

/-- The note of agent.py line 197, appended when no response is substantive. -/
def assumptionsNote : PyStr :=
  "Note: The user provided minimal responses to the clarification questions. Please generate a workflow script based on the original prompt and make reasonable assumptions where information is missing.\n\n".data

/-- `_update_prompt_with_clarification` (agent.py 167-200). -/
def updatePromptWithClarification (prompt : PyStr) (responses : List QA) : PyStr :=
  let start := "\n\nClarification:\n".data
  let (text, has) := clarLoop responses start false
  let text := if has then text else text ++ assumptionsNote
  prompt ++ text

/-- `_needs_clarification` (agent.py 154-165): the decision ignores its input
and always returns `True` ("Always ask clarifying questions before
generating code"). -/
def agentNeedsClarification (_ : CotResult) : Bool := true

/-! ## Example-script retrieval (`tools/retrieve_code_shots.py`)

A code shot is a dict with keys `id`, `title`, `description`, `tags`, `code`;
`execute` adds a `relevance` key to a *copy* of a matching record, so the
field is an `Option Nat`, `none` on every stored corpus record.  The bodies of
the five built-in example scripts are elided (`[]`): no claim observes the
`code` text, and retrieval scores only `title`, `description` and `tags`. -/

structure CodeShot where
  id : PyStr
  title : PyStr
  description : PyStr
  tags : List PyStr
  code : PyStr
  relevance : Option Nat := none
deriving DecidableEq

/-- The sort key of `results.sort(key=lambda r: r.get("relevance", 0), ...)`. -/
def relKey (s : CodeShot) : Nat := s.relevance.getD 0

/-- The relevance computation of `execute` (retrieve_code_shots.py 54-76):
+3 per query term occurring in the lowercased title, +1 per query term in the
lowercased description, +2 per tag whose lowercase form occurs in the whole
lowercased query. -/
def relevanceOf (queryLow : PyStr) (terms : List PyStr) (s : CodeShot) : Nat :=
  3 * terms.countP (fun t => containsSub t (pyLower s.title))
    + terms.countP (fun t => containsSub t (pyLower s.description))
    + 2 * s.tags.countP (fun tag => containsSub (pyLower tag) queryLow)

/-- The result-building loop of `execute` (retrieve_code_shots.py 54-82): a
record with positive relevance contributes a copy carrying the score. -/
def shotsLoop (queryLow : PyStr) (terms : List PyStr) : List CodeShot → List CodeShot
  | [] => []
  | s :: rest =>
    let rel := relevanceOf queryLow terms s
    if 0 < rel then { s with relevance := some rel } :: shotsLoop queryLow terms rest
    else shotsLoop queryLow terms rest

/-- Stable descending insertion by the key `k`: `x` is placed before the first
element whose key is at most `k x`.  Used to model Python's stable
`list.sort(key=..., reverse=True)`, which it matches extensionally (unique
descending stable permutation). -/
def insertByKeyDesc (k : α → Nat) (x : α) : List α → List α
  | [] => [x]
  | y :: ys => if k y ≤ k x then x :: y :: ys else y :: insertByKeyDesc k x ys

/-- Stable descending sort by the key `k` (model of Python's stable
`sort(key=..., reverse=True)`). -/
def sortByKeyDesc (k : α → Nat) (l : List α) : List α := l.foldr (insertByKeyDesc k) []

/-- `RetrieveCodeShotsTool.execute` (retrieve_code_shots.py 35-87): lowercase
the query, split it into terms, keep every record with positive relevance,
sort stably by descending relevance. -/
def executeShots (db : List CodeShot) (query : PyStr) : List CodeShot :=
  let q := pyLower query
  let terms := pyWords (pyLower q)
  sortByKeyDesc relKey (shotsLoop q terms db)

/-- State-passing variant of the loop for the frame claim: second component is
the tool's stored corpus as the iteration leaves it.  Each iteration only
reads the stored record `s` and mutates the copy (`code_shot.copy()` at line
80), so it passes `s` itself back unchanged. -/
def shotsLoopSt (queryLow : PyStr) (terms : List PyStr) :
    List CodeShot → List CodeShot × List CodeShot
  | [] => ([], [])
  | s :: rest =>
    let rel := relevanceOf queryLow terms s
    let (res, after) := shotsLoopSt queryLow terms rest
    (if 0 < rel then { s with relevance := some rel } :: res else res, s :: after)

/-- `execute` with the stored corpus tracked: `(results, corpus after call)`. -/
def executeShotsSt (db : List CodeShot) (query : PyStr) :
    List CodeShot × List CodeShot :=
  let q := pyLower query
  let terms := pyWords (pyLower q)
  let (res, after) := shotsLoopSt q terms db
  (sortByKeyDesc relKey res, after)

/-- The built-in default database of `_get_default_database`
(retrieve_code_shots.py 110-402), `code` bodies elided as described above. -/
def defaultDatabase : List CodeShot :=
  [ { id := "auto_assign_critical".data,
      title := "Auto-assign critical issues to team lead".data,
      description := "Automatically assigns issues with Critical priority to the team lead".data,
      tags := ["auto-assign".data, "priority".data, "critical".data, "team lead".data],
      code := [] },
    { id := "auto_set_due_date".data,
      title := "Auto-set due date based on priority".data,
      description := "Automatically sets a due date based on the issue's priority".data,
      tags := ["due date".data, "priority".data, "deadline".data],
      code := [] },
    { id := "notify_on_comment".data,
      title := "Notify mentioned users in comments".data,
      description := "Sends notifications to users mentioned in comments using @username syntax".data,
      tags := ["notification".data, "comment".data, "mention".data, "@mention".data],
      code := [] },
    { id := "auto_add_tag".data,
      title := "Auto-add tags based on description".data,
      description := "Automatically adds tags to issues based on keywords in the description".data,
      tags := ["tag".data, "auto-tag".data, "keyword".data, "description".data],
      code := [] },
    { id := "state_transition".data,
      title := "State transition workflow".data,
      description := "Implements a state machine for issue states with validation rules".data,
      tags := ["state".data, "transition".data, "workflow".data, "validation".data],
      code := [] } ]

/-- `_initialize_database` (retrieve_code_shots.py 89-108).  `databasePath` is
the constructor argument; `fileExists` models `os.path.exists`; `loadResult`
models `json.load` (`none` = `JSONDecodeError`/`IOError`).  Every failure path
falls back to the default database — nothing raises. -/
def initDatabase (databasePath : Option PyStr) (fileExists : Bool)
    (loadResult : Option (List CodeShot)) : List CodeShot :=
  match databasePath with
  | some _ =>
    if fileExists then
      match loadResult with
      | some db => db
      | none => defaultDatabase
    else defaultDatabase
  | none => defaultDatabase

/-! ## Documentation/source search (`tools/search_code.py`) -/

/-- A file of the scripting-API directory: path and content (the directory
walk and the read are external, so the file list is a parameter; the
per-call content cache only avoids re-reads and is observationally inert). -/
structure SrcFile where
  path : PyStr
  content : PyStr
deriving DecidableEq

/-- One search result of `_search_file`. -/
structure SearchHit where
  file : PyStr
  filePath : PyStr
  line : Nat
  code : PyStr
  relevance : Nat
  type : PyStr
deriving DecidableEq

/-- Model of `os.path.basename`: the part after the last `/`. -/
def baseName (p : PyStr) : PyStr := (p.reverse.takeWhile (fun c => c ≠ '/')).reverse

/-- Model of `file.endswith(".js")` in `_get_js_files`. -/
def endsWithJs (p : PyStr) : Bool := isPre ".js".data.reverse p.reverse

/-- The line loop of `_search_file` (search_code.py 122-175).  `i` is the
running index, the remaining three arguments are `current_block`,
`current_block_start` and `in_comment_block`; `allLines` backs the
`lines[...]` window slices. -/
def searchFileGo (fp : PyStr) (terms : List PyStr) (allLines : List PyStr) :
    Nat → List PyStr → List PyStr → Nat → Bool → List SearchHit
  | _, [], _, _, _ => []
  | i, line :: rest, curBlock, blockStart, inC =>
    let lineLower := pyLower line
    if containsSub "/**".data line then
      -- opens a comment block; the per-line check below is skipped
      -- because `in_comment_block` is now true
      searchFileGo fp terms allLines (i + 1) rest [line] i true
    else if containsSub "*/".data line && inC then
      let block := curBlock ++ [line]
      let blockText := pyLower (joinWith "\n".data block)
      let rel := terms.countP (fun t => containsSub t blockText)
      let blockHits : List SearchHit :=
        if 0 < rel then
          let codeBlock := block ++ (allLines.drop (i + 1)).take 10
          [{ file := baseName fp, filePath := fp, line := blockStart + 1,
             code := joinWith "\n".data codeBlock, relevance := rel,
             type := "comment_with_code".data }]
        else []
      -- `in_comment_block` is now false, so the closing line itself is also
      -- subject to the per-line check (search_code.py 159-175)
      let rel2 := terms.countP (fun t => containsSub t lineLower)
      let lineHits : List SearchHit :=
        if 0 < rel2 then
          let start := i - 5
          let stop := min allLines.length (i + 6)
          [{ file := baseName fp, filePath := fp, line := i + 1,
             code := joinWith "\n".data ((allLines.drop start).take (stop - start)),
             relevance := rel2, type := "code".data }]
        else []
      blockHits ++ lineHits ++ searchFileGo fp terms allLines (i + 1) rest [] blockStart false
    else if inC then
      searchFileGo fp terms allLines (i + 1) rest (curBlock ++ [line]) blockStart true
    else
      let rel2 := terms.countP (fun t => containsSub t lineLower)
      let lineHits : List SearchHit :=
        if 0 < rel2 then
          let start := i - 5
          let stop := min allLines.length (i + 6)
          [{ file := baseName fp, filePath := fp, line := i + 1,
             code := joinWith "\n".data ((allLines.drop start).take (stop - start)),
             relevance := rel2, type := "code".data }]
        else []
      lineHits ++ searchFileGo fp terms allLines (i + 1) rest curBlock blockStart false

/-- `_search_file` (search_code.py 89-177). -/
def searchFile (terms : List PyStr) (f : SrcFile) : List SearchHit :=
  let lines := splitNl f.content
  searchFileGo f.path terms lines 0 lines [] 0 false

/-- `SearchCodeTool.execute` (search_code.py 46-71): lowercase the query,
search every `.js` file, stable-sort the concatenated results by descending
relevance.  Each `_search_file` splits the lowered query itself (line 112);
the fold over files preserves the walk order. -/
def executeSearch (files : List SrcFile) (query : PyStr) : List SearchHit :=
  let q := pyLower query
  let terms := pyWords (pyLower q)
  sortByKeyDesc (fun h => h.relevance)
    (((files.filter (fun f => endsWithJs f.path)).map (searchFile terms)).flatten)

/-- The state `SearchCodeTool.__init__` builds when it succeeds. -/
structure SearchState where
  apiDir : PyStr
  files : List SrcFile
deriving DecidableEq

/-- `SearchCodeTool.__init__` (search_code.py 22-44): when the API directory
does not exist it raises `ValueError` (lines 40-41), modelled as
`Except.error` carrying the message text. -/
def searchToolInit (apiDir : PyStr) (dirExists : Bool) (files : List SrcFile) :
    Except PyStr SearchState :=
  if dirExists then Except.ok { apiDir := apiDir, files := files }
  else Except.error ("YouTrack scripting API directory not found at ".data ++ apiDir)

/-- Construct the search tool, then run one query: the shape a caller
observes for "the retrieval call" including construction. -/
def searchRetrieve (apiDir : PyStr) (dirExists : Bool) (files : List SrcFile)
    (query : PyStr) : Except PyStr (List SearchHit) :=
  (searchToolInit apiDir dirExists files).map (fun st => executeSearch st.files query)

/-! ## Code extraction in the code flavor (`tools/llm_request.py` 132-186) -/

/-- The fenced-block marker. -/
def fenceMarker : PyStr := "```".data

/-- The fence loop of `generate_code` (llm_request.py 165-179): a line
starting with the marker toggles `in_code_block` and, when it closes a block,
appends the joined block body; other lines accumulate while inside a block. -/
def codeBlocksGo : List PyStr → Bool → List PyStr → List PyStr
  | [], _, _ => []
  | line :: rest, inB, cur =>
    if isPre fenceMarker line then
      if inB then joinWith "\n".data cur :: codeBlocksGo rest false []
      else codeBlocksGo rest true []
    else if inB then codeBlocksGo rest inB (cur ++ [line])
    else codeBlocksGo rest inB cur

/-- The complete fenced-block bodies of a response, in order. -/
def codeBlocksOf (content : PyStr) : List PyStr :=
  codeBlocksGo (splitNl content) false []

/-- The extraction policy of `generate_code` (llm_request.py 161-181):
`code = content`; if the marker occurs anywhere, collect the fenced blocks,
and only a non-empty collection replaces `code` by the bodies joined with a
blank line. -/
def extractCode (content : PyStr) : PyStr :=
  if containsSub fenceMarker content then
    let bs := codeBlocksOf content
    if bs.isEmpty then content else joinWith "\n\n".data bs
  else content

/-- The claim's reading of the extraction policy, stated from its words: a
response containing a fence marker yields exactly the concatenation of the
fenced regions, one blank line between them; otherwise the whole response. -/
def claimedExtract (content : PyStr) : PyStr :=
  if containsSub fenceMarker content then joinWith "\n\n".data (codeBlocksOf content)
  else content

/-! ## Test/validation action (`actions/test_code.py`) -/

/-- Observable result of `BashTool.execute` (tools/bash.py): the fields
`_check_syntax` reads.  Running `node --check` is external, so the bash tool
is an oracle `PyStr → BashResult` indexed by the script text. -/
structure BashResult where
  success : Bool
  stderr : PyStr
deriving DecidableEq

/-- Python's `\w` on ASCII: letters, digits, underscore. -/
def wordChar (c : Char) : Bool := c.isAlpha || c.isDigit || c = '_'

/-- Matcher for `re.search(r"ctx\.issue\s*\.\s*fields\s*\.\s*\w+\s*=", code)`
at one position.  Each character class is disjoint from the literal that
follows it, so the greedy `\s*`/`\w+` scans are the only possible matches. -/
def matchAssignAt (s : PyStr) : Bool :=
  if isPre "ctx.issue".data s then
    match (s.drop 9).dropWhile isSpaceChar with
    | '.' :: s3 =>
      let s4 := s3.dropWhile isSpaceChar
      if isPre "fields".data s4 then
        match (s4.drop 6).dropWhile isSpaceChar with
        | '.' :: s7 =>
          let s8 := s7.dropWhile isSpaceChar
          let w := s8.takeWhile wordChar
          if w = [] then false
          else
            match (s8.drop w.length).dropWhile isSpaceChar with
            | '=' :: _ => true
            | _ => false
        | _ => false
      else false
    | _ => false
  else false

/-- `re.search` of the field-assignment pattern anywhere in the text. -/
def searchAssign : PyStr → Bool
  | [] => false
  | c :: r => matchAssignAt (c :: r) || searchAssign r

/-- The issue list `_validate_code` accumulates (test_code.py 113-145), in
source order. -/
def validateIssues (code : PyStr) : List PyStr :=
  (if containsSub "require('@jetbrains/youtrack-scripting-api/entities')".data code then []
   else ["Missing required import: entities".data])
  ++ (if containsSub "exports.rule".data code then [] else ["Missing exports.rule".data])
  ++ (if containsSub "title:".data code then [] else ["Missing rule title".data])
  ++ (if containsSub "guard:".data code then [] else ["Missing guard function".data])
  ++ (if containsSub "action:".data code then [] else ["Missing action function".data])
  ++ (if searchAssign code && !containsSub "requirements:".data code then
        ["Setting field values but missing requirements section".data]
      else [])
  ++ (if containsSub "while".data code && !containsSub "break".data code then
        ["Potential infinite loop: while loop without break statement".data]
      else [])
  ++ (if containsSub "try".data code && !containsSub "catch".data code then
        ["Incomplete error handling: try without catch".data]
      else [])

/-- Result of `_validate_code` (test_code.py 147-158): success iff the issue
list is empty (the success dict carries no `issues` key, modelled as `[]`). -/
structure ValidationOutcome where
  success : Bool
  issues : List PyStr
deriving DecidableEq

/-- `_validate_code` (test_code.py 103-158). -/
def validateCode (code : PyStr) : ValidationOutcome :=
  let issues := validateIssues code
  if issues.isEmpty then { success := true, issues := [] }
  else { success := false, issues := issues }

/-- Result of `TestCodeAction.execute`: the combined dict of test_code.py
56-69, plus the instrumentation flag `validationRan` recording whether
`_validate_code` was invoked (it is called only in the branch where the
syntax check passed). -/
structure TestOutcome where
  success : Bool
  syntaxOk : Bool
  validationRan : Bool
  issues : List PyStr
deriving DecidableEq

/-- `TestCodeAction.execute` (test_code.py 34-72): `_check_syntax` succeeds
iff `node --check` exits zero (the oracle's `success`); only then is
`_validate_code` run, and the overall success is the validation's. -/
def testCodeExecute (syntaxRes : BashResult) (code : PyStr) : TestOutcome :=
  if syntaxRes.success then
    let v := validateCode code
    { success := v.success, syntaxOk := true, validationRan := true, issues := v.issues }
  else
    { success := false, syntaxOk := false, validationRan := false, issues := [] }

/-! ## Orchestrator (`agent.py` 80-152) -/

/-- The plan record of `strategies/plan.py` as the generator consumes it. -/
structure PlanResult where
  plan : PyStr
  components : List PyStr
  requirements : List PyStr
deriving DecidableEq

/-- Arguments of `GenerateCodeTool.execute` (tools/generate_code.py 33-58). -/
structure GenInput where
  prompt : PyStr
  searchResults : List SearchHit
  codeShots : List CodeShot
  plan : PlanResult
  testResult : Option TestOutcome
deriving DecidableEq

/-- One stage execution, recorded in order: the instrumentation trace for
"executes exactly once / twice" claims. -/
inductive StageEv
  | cot | clarifyQ | feedback | planEv | searchEv | shotsEv | gen | validate
deriving DecidableEq

/-- The orchestrator's collaborators.  LLM-backed and human-backed stages are
oracles; the two retrieval tools run the embedded implementations over the
corpus state (`files`, `db`) the tools were constructed with. -/
structure PipelineEnv where
  cotO : PyStr → CotResult
  askO : CotResult → List PyStr
  feedbackO : List PyStr → List QA
  planO : PyStr → PlanResult
  genO : GenInput → PyStr
  syntaxO : PyStr → BashResult
  files : List SrcFile
  db : List CodeShot

/-- `generate_workflow_script` (agent.py 80-152), with a trace of stage
executions.  The `Memory.add_*` calls are elided: they only append to the
session log and have no effect on control flow or on the returned script. -/
def runPipeline (env : PipelineEnv) (prompt : PyStr) : PyStr × List StageEv :=
  let cotResult := env.cotO prompt
  let clarificationNeeded := agentNeedsClarification cotResult
  let (prompt, clarEvs) :=
    if clarificationNeeded then
      let questions := env.askO cotResult
      let userFeedback := env.feedbackO questions
      (updatePromptWithClarification prompt userFeedback,
        [StageEv.clarifyQ, StageEv.feedback])
    else (prompt, [])
  let plan := env.planO prompt
  let searchResults := executeSearch env.files prompt
  let codeShots := executeShots env.db prompt
  let generatedCode := env.genO
    { prompt := prompt, searchResults := searchResults, codeShots := codeShots,
      plan := plan, testResult := none }
  let testResult := testCodeExecute (env.syntaxO generatedCode) generatedCode
  if !testResult.success then
    let generatedCode := env.genO
      { prompt := prompt, searchResults := searchResults, codeShots := codeShots,
        plan := plan, testResult := some testResult }
    let _testResult2 := testCodeExecute (env.syntaxO generatedCode) generatedCode
    (generatedCode,
      StageEv.cot :: clarEvs ++
        [StageEv.planEv, StageEv.searchEv, StageEv.shotsEv,
         StageEv.gen, StageEv.validate, StageEv.gen, StageEv.validate])
  else
    (generatedCode,
      StageEv.cot :: clarEvs ++
        [StageEv.planEv, StageEv.searchEv, StageEv.shotsEv,
         StageEv.gen, StageEv.validate])

/-- The working prompt after the (unconditional) clarification stage. -/
def pipelinePromptAfterClar (env : PipelineEnv) (p : PyStr) : PyStr :=
  if agentNeedsClarification (env.cotO p) then
    updatePromptWithClarification p (env.feedbackO (env.askO (env.cotO p)))
  else p

/-- The generation input of the first attempt. -/
def pipelineGenInput1 (env : PipelineEnv) (p : PyStr) : GenInput :=
  let p2 := pipelinePromptAfterClar env p
  { prompt := p2, searchResults := executeSearch env.files p2,
    codeShots := executeShots env.db p2, plan := env.planO p2, testResult := none }

/-- The script of the first generation attempt. -/
def pipelineScript1 (env : PipelineEnv) (p : PyStr) : PyStr :=
  env.genO (pipelineGenInput1 env p)

/-- The first validation's result. -/
def pipelineTest1 (env : PipelineEnv) (p : PyStr) : TestOutcome :=
  testCodeExecute (env.syntaxO (pipelineScript1 env p)) (pipelineScript1 env p)

/-- The script of the retry attempt (generated with the first test attached). -/
def pipelineScript2 (env : PipelineEnv) (p : PyStr) : PyStr :=
  env.genO { pipelineGenInput1 env p with testResult := some (pipelineTest1 env p) }

/-- A response with one missing-information item and an explicit
"Needs Clarification: No" line. -/
def c2Content : PyStr :=
  "Missing Information:\n- The target project\nNeeds Clarification: No".data

/-- An LLM oracle that always fails (network down). -/
def c8LlmDown : PyStr → LLMResult :=
  fun _ => { success := false, content := [], error := "connection error".data }

/-- The Q/A text block the fold-back loop appends, one
`"Q: …\nA: …\n\n"` paragraph per response in order. -/
def qaBlock (responses : List QA) : PyStr :=
  (responses.map
    (fun qa => "Q: ".data ++ qa.question ++ "\nA: ".data ++ qa.answer ++ "\n\n".data)).flatten

/-- A response containing the fence marker but no fence-marker *line*: the
code keeps the whole response, while the claim's policy ("concatenation of
the contents of all fenced regions") yields the empty concatenation. -/
def c5Input : PyStr := "a ``` b".data

/-- A response with exactly two complete fenced blocks (the second fence line
carries a language tag) and text before, between and after them. -/
def c5TwoBlocks : PyStr :=
  "intro\n```\nlet a = 1\n```\nmiddle text\n```js\nlet b = 2\n```\noutro".data

/-- One scored copy, as `execute` builds it for records entering the result
list: the original record with the computed relevance attached. -/
def scoreShot (query : PyStr) (s : CodeShot) : CodeShot :=
  { s with relevance := some (relevanceOf (pyLower query) (pyWords (pyLower (pyLower query))) s) }

/-! ## Theorems -/

/-- C2: for every LLM response text parsed by `_parse_cot_result`, if the
parsed missing-information list or the parsed ambiguities list is non-empty,
the returned record's `needs_clarification` flag is true — the post-hoc
override of cot.py 187-188 wins even against an explicit
"Needs Clarification: No" line (the witness exercises exactly that case). -/
theorem C2_needs_clarification_forced (content : PyStr)
    (h : (parseCot content).missingInformation ≠ [] ∨
         (parseCot content).ambiguities ≠ []) :
    (parseCot content).needsClarification = true := by
  unfold parseCot at h ⊢
  generalize ((splitNl content).foldl cotStep (cotInit, CotSection.nosec)).1 = r at h ⊢
  unfold cotPostClarification at h ⊢
  by_cases hc : r.missingInformation ≠ [] ∨ r.ambiguities ≠ []
  · rw [if_pos hc]
  · rw [if_neg hc] at h
    exact absurd h hc

/-- Witness for C2: on `c2Content` the parsed missing-information list is
non-empty and the returned flag is true despite the explicit "No". -/
theorem C2_needs_clarification_forced_witness :
    ((parseCot c2Content).missingInformation ≠ [] ∨
      (parseCot c2Content).ambiguities ≠ []) ∧
    (parseCot c2Content).needsClarification = true :=
  ⟨Or.inl (by decide), C2_needs_clarification_forced c2Content (Or.inl (by decide))⟩

/-- C8: whenever the LLM call fails during the reasoning stage (the oracle
reports `success = false`, covering both the exception handler of
llm_request.py 122-130 and the missing-choices branch of lines 112-121),
`ChainOfThoughtStrategy.execute` returns the fixed record of cot.py 58-67:
empty rationale, empty steps, empty missing-information and ambiguity lists,
and `needs_clarification` true.  The embedding is a total function, so no
exception reaches the caller. -/
theorem C8_cot_failure_default (llm : PyStr → LLMResult) (prompt : PyStr)
    (h : (llm (createCotPrompt prompt)).success = false) :
    cotExecute llm prompt =
      { success := false, error := (llm (createCotPrompt prompt)).error,
        prompt := prompt, rawContent := [], reasoning := [], steps := [],
        missingInformation := [], ambiguities := [],
        needsClarification := true } := by
  simp [cotExecute, h]

/-- Witness for C8 at a concrete failing oracle and prompt. -/
theorem C8_cot_failure_default_witness :
    (c8LlmDown (createCotPrompt "make a workflow".data)).success = false ∧
    cotExecute c8LlmDown "make a workflow".data =
      { success := false,
        error := (c8LlmDown (createCotPrompt "make a workflow".data)).error,
        prompt := "make a workflow".data, rawContent := [], reasoning := [],
        steps := [], missingInformation := [], ambiguities := [],
        needsClarification := true } :=
  ⟨rfl, C8_cot_failure_default c8LlmDown "make a workflow".data rfl⟩

/-- C9: `_needs_clarification` returns true for every chain-of-thought
result, so on every pipeline run the clarification stage (question
generation and answer collection, whose fold-back result becomes the working
prompt) executes exactly once. -/
theorem C9_clarify_unconditional :
    (∀ c : CotResult, agentNeedsClarification c = true) ∧
    (∀ (env : PipelineEnv) (p : PyStr),
      (runPipeline env p).2.count StageEv.clarifyQ = 1 ∧
      (runPipeline env p).2.count StageEv.feedback = 1) := by
  refine ⟨fun _ => rfl, fun env p => ?_⟩
  simp only [runPipeline, agentNeedsClarification, if_true, ite_true]
  split <;> exact ⟨rfl, rfl⟩

/-- C7: the overall success flag of `TestCodeAction.execute` is true iff the
external syntax check succeeded and `_validate_code` produced an empty issue
list; and `_validate_code` runs exactly when the syntax check passed. -/
theorem C7_validation_success_iff (syntaxRes : BashResult) (code : PyStr) :
    ((testCodeExecute syntaxRes code).success = true ↔
      (syntaxRes.success = true ∧ validateIssues code = [])) ∧
    (testCodeExecute syntaxRes code).validationRan = syntaxRes.success := by
  unfold testCodeExecute validateCode
  cases hs : syntaxRes.success <;>
    cases hi : (validateIssues code).isEmpty <;>
      simp_all [List.isEmpty_iff]

/-- The state-passing loop returns the results of the plain loop and passes
every stored record through unchanged. -/
theorem shotsLoopSt_spec (q : PyStr) (terms : List PyStr) (db : List CodeShot) :
    shotsLoopSt q terms db = (shotsLoop q terms db, db) := by
  induction db with
  | nil => rfl
  | cons s rest ih => simp [shotsLoopSt, shotsLoop, ih]

/-- C10: `RetrieveCodeShotsTool.execute` never mutates the stored corpus:
after any query the tool's code-shots list is exactly the list it started
with (same records, same order, `relevance` still absent), because the
per-record `relevance` write of retrieve_code_shots.py 80-81 targets
`code_shot.copy()`, and the results are those copies. -/
theorem C10_retrieve_no_mutation (db : List CodeShot) (q : PyStr) :
    (executeShotsSt db q).2 = db ∧ (executeShotsSt db q).1 = executeShots db q := by
  unfold executeShotsSt executeShots
  simp [shotsLoopSt_spec]

/-- The fold-back loop appends exactly the Q/A block and computes
`has_substantive_response` as an `any` over the answers. -/
theorem clarLoop_spec (responses : List QA) (text : PyStr) (has : Bool) :
    clarLoop responses text has =
      (text ++ qaBlock responses,
        has || responses.any (fun qa => isSubstantive qa.answer)) := by
  induction responses generalizing text has with
  | nil => simp [clarLoop, qaBlock]
  | cons qa rest ih =>
    cases hsub : isSubstantive qa.answer <;>
      simp [clarLoop, hsub, ih, qaBlock, List.append_assoc]

/-- C3: in `_update_prompt_with_clarification`, an answer counts as
substantive exactly when its trimmed length exceeds 3 and its lowercased text
is not one of {"yes", "no", "none", "n/a"} (agent.py 190, which lowercases
the raw answer); the "make reasonable assumptions" note is appended to the
updated prompt if and only if no answer is substantive, after the verbatim
Q/A pairs in either case. -/
theorem C3_clarification_foldback (prompt : PyStr) (responses : List QA) :
    updatePromptWithClarification prompt responses =
      prompt ++ "\n\nClarification:\n".data ++ qaBlock responses ++
        (if responses.any (fun qa =>
              decide (3 < (pyStrip qa.answer).length) &&
                !([("yes".data : PyStr), "no".data, "none".data, "n/a".data].contains
                    (pyLower qa.answer)))
          then ([] : PyStr) else assumptionsNote) := by
  simp only [updatePromptWithClarification, clarLoop_spec]
  simp only [Bool.false_or, isSubstantive]
  cases hany : responses.any (fun qa =>
      decide (3 < (pyStrip qa.answer).length) &&
        !([("yes".data : PyStr), "no".data, "none".data, "n/a".data].contains
            (pyLower qa.answer))) <;>
    simp [hany, List.append_assoc]

/-- Counterexample to C5 as stated: `c5Input` contains the fenced-block
marker, yet the extracted script is not the concatenation of the fenced
regions (there are none) — the code falls back to the entire response. -/
theorem C5_fenced_extraction_counterexample :
    containsSub fenceMarker c5Input = true ∧
    extractCode c5Input ≠ claimedExtract c5Input := by
  decide

/-- C5 (amended): if the response contains the fence marker *and at least one
complete fenced block* (a line starting with the marker, later matched by
another such line), the extracted script is the concatenation of the bodies
of the complete fenced regions in order, one blank line between them,
excluding the fence-marker lines and all text outside the fences; otherwise
(no marker, or a marker with no complete block) the entire response is the
script.  The second conjunct checks the spec's two-block scenario. -/
theorem C5_fenced_extraction_amended :
    (∀ content : PyStr,
      extractCode content =
        if containsSub fenceMarker content && !(codeBlocksOf content).isEmpty then
          joinWith "\n\n".data (codeBlocksOf content)
        else content) ∧
    extractCode c5TwoBlocks = "let a = 1\n\nlet b = 2".data := by
  refine ⟨fun content => ?_, by decide⟩
  unfold extractCode
  cases hm : containsSub fenceMarker content <;>
    cases hb : (codeBlocksOf content).isEmpty <;>
      simp [hm, hb]

/-- C1: the orchestrator's retry law.  If the first validation succeeds, the
run is exactly one generation and one validation and returns the first
script; if it fails, generation and validation each run exactly twice and the
returned script is the retry's — the one belonging to the final validation —
even when that final validation also fails (the second test result is only
recorded, never consulted and never raised: the run is a total function whose
result carries the script regardless). -/
theorem C1_orchestrator_retry_law (env : PipelineEnv) (p : PyStr) :
    ((pipelineTest1 env p).success = true →
      runPipeline env p =
        (pipelineScript1 env p,
          [StageEv.cot, StageEv.clarifyQ, StageEv.feedback, StageEv.planEv,
           StageEv.searchEv, StageEv.shotsEv, StageEv.gen, StageEv.validate])) ∧
    ((pipelineTest1 env p).success = false →
      runPipeline env p =
        (pipelineScript2 env p,
          [StageEv.cot, StageEv.clarifyQ, StageEv.feedback, StageEv.planEv,
           StageEv.searchEv, StageEv.shotsEv, StageEv.gen, StageEv.validate,
           StageEv.gen, StageEv.validate])) ∧
    ((runPipeline env p).2.count StageEv.gen =
      if (pipelineTest1 env p).success then 1 else 2) ∧
    ((runPipeline env p).2.count StageEv.validate =
      if (pipelineTest1 env p).success then 1 else 2) := by
  have hrun : runPipeline env p =
      if (pipelineTest1 env p).success then
        (pipelineScript1 env p,
          [StageEv.cot, StageEv.clarifyQ, StageEv.feedback, StageEv.planEv,
           StageEv.searchEv, StageEv.shotsEv, StageEv.gen, StageEv.validate])
      else
        (pipelineScript2 env p,
          [StageEv.cot, StageEv.clarifyQ, StageEv.feedback, StageEv.planEv,
           StageEv.searchEv, StageEv.shotsEv, StageEv.gen, StageEv.validate,
           StageEv.gen, StageEv.validate]) := by
    simp only [runPipeline, pipelineTest1, pipelineScript2, pipelineScript1,
      pipelineGenInput1, pipelinePromptAfterClar, agentNeedsClarification,
      ite_true, if_true]
    split
    next h =>
      simp at h
      simp [h]
    next h =>
      simp at h
      simp [h]
  refine ⟨fun h => ?_, fun h => ?_, ?_, ?_⟩
  · rw [hrun, if_pos h]
  · rw [hrun, h]
    simp
  · rw [hrun]
    cases h : (pipelineTest1 env p).success <;> simp [h]
  · rw [hrun]
    cases h : (pipelineTest1 env p).success <;> simp [h]

/-- Counterexample to C4 as stated: a missing corpus is *not* tolerated by
returning an empty list.  (1) When the documentation/source directory is
absent, `SearchCodeTool.__init__` raises `ValueError` (search_code.py 40-41),
so the retrieval call fails instead of returning `[]`.  (2) When the
example-script database file is absent, `_initialize_database` silently falls
back to the built-in default corpus, and the query "critical" then returns a
non-empty result list. -/
theorem C4_missing_corpus_counterexample :
    searchRetrieve "docs".data false [] "priority".data =
      Except.error ("YouTrack scripting API directory not found at docs".data) ∧
    executeShots (initDatabase (some "db.json".data) false none) "critical".data ≠ [] := by
  constructor
  · rfl
  · decide

/-- C4 (amended): both retrieval components tolerate an *empty* corpus — an
empty example-script database and an empty (or `.js`-free) documentation
directory each make every query return `[]` without failing.  A missing or
unreadable database *file* is also tolerated, but by falling back to the
built-in default corpus rather than by returning an empty list; a missing
documentation *directory* is not tolerated: the search tool's construction
fails with an error. -/
theorem C4_empty_corpus_tolerated (q apiDir dbPath : PyStr) (files : List SrcFile) :
    executeShots [] q = [] ∧
    executeSearch [] q = [] ∧
    searchRetrieve apiDir true [] q = Except.ok [] ∧
    initDatabase (some dbPath) false none = defaultDatabase ∧
    initDatabase none false none = defaultDatabase ∧
    searchToolInit apiDir false files =
      Except.error ("YouTrack scripting API directory not found at ".data ++ apiDir) :=
  ⟨rfl, rfl, rfl, rfl, rfl, rfl⟩

/-- Inserting with `insertByKeyDesc` is a permutation of consing. -/
theorem insertByKeyDesc_perm (k : α → Nat) (x : α) (l : List α) :
    (insertByKeyDesc k x l).Perm (x :: l) := by
  induction l with
  | nil => exact List.Perm.refl _
  | cons y ys ih =>
    unfold insertByKeyDesc
    split
    · exact List.Perm.refl _
    · exact (ih.cons y).trans (List.Perm.swap x y ys)

/-- The stable descending sort is a permutation of its input. -/
theorem sortByKeyDesc_perm (k : α → Nat) (l : List α) :
    (sortByKeyDesc k l).Perm l := by
  induction l with
  | nil => exact List.Perm.refl _
  | cons x xs ih => exact (insertByKeyDesc_perm k x _).trans (ih.cons x)

/-- Insertion preserves descending order of keys. -/
theorem insertByKeyDesc_pairwise (k : α → Nat) (x : α) (l : List α)
    (h : l.Pairwise (fun a b => k b ≤ k a)) :
    (insertByKeyDesc k x l).Pairwise (fun a b => k b ≤ k a) := by
  induction l with
  | nil => simp [insertByKeyDesc]
  | cons y ys ih =>
    rw [List.pairwise_cons] at h
    obtain ⟨hy, hys⟩ := h
    unfold insertByKeyDesc
    split
    next hle =>
      refine List.Pairwise.cons ?_ (List.Pairwise.cons hy hys)
      intro b hb
      rcases List.mem_cons.mp hb with rfl | hb
      · exact hle
      · exact le_trans (hy b hb) hle
    next hgt =>
      refine List.Pairwise.cons ?_ (ih hys)
      intro b hb
      rcases List.mem_cons.mp ((insertByKeyDesc_perm k x ys).mem_iff.mp hb) with rfl | hb'
      · exact le_of_not_le hgt
      · exact hy b hb'

/-- The stable descending sort yields pairwise descending keys. -/
theorem sortByKeyDesc_pairwise (k : α → Nat) (l : List α) :
    (sortByKeyDesc k l).Pairwise (fun a b => k b ≤ k a) := by
  induction l with
  | nil => simp [sortByKeyDesc]
  | cons x xs ih => exact insertByKeyDesc_pairwise k x _ ih

/-- Inserting an element whose key is not `v` does not change the key-`v`
sublist. -/
theorem insertByKeyDesc_filter_ne (k : α → Nat) (x : α) (l : List α) (v : Nat)
    (hx : k x ≠ v) :
    (insertByKeyDesc k x l).filter (fun a => k a == v) =
      l.filter (fun a => k a == v) := by
  induction l with
  | nil => simp [insertByKeyDesc, List.filter_cons, hx]
  | cons y ys ih =>
    unfold insertByKeyDesc
    split
    · simp [List.filter_cons, hx]
    · simp [List.filter_cons, ih]

/-- Inserting an element whose key is `v` puts it at the head of the key-`v`
sublist: every element it is placed after has a strictly greater key. -/
theorem insertByKeyDesc_filter_eq (k : α → Nat) (x : α) (l : List α) (v : Nat)
    (hx : k x = v) :
    (insertByKeyDesc k x l).filter (fun a => k a == v) =
      x :: l.filter (fun a => k a == v) := by
  induction l with
  | nil => simp [insertByKeyDesc, List.filter_cons, hx]
  | cons y ys ih =>
    unfold insertByKeyDesc
    split
    next hle => simp [List.filter_cons, hx]
    next hgt =>
      have hy : k y ≠ v := by
        subst hx
        exact fun he => hgt (le_of_eq he)
      simp [List.filter_cons, hy, ih]

/-- Stability of the sort: for every key value `v`, the elements with key `v`
appear in the sorted list exactly as they appear in the input. -/
theorem sortByKeyDesc_filter (k : α → Nat) (l : List α) (v : Nat) :
    (sortByKeyDesc k l).filter (fun a => k a == v) =
      l.filter (fun a => k a == v) := by
  induction l with
  | nil => rfl
  | cons x xs ih =>
    have hfold : sortByKeyDesc k (x :: xs) = insertByKeyDesc k x (sortByKeyDesc k xs) := rfl
    by_cases hx : k x = v
    · rw [hfold, insertByKeyDesc_filter_eq k x _ v hx, ih, List.filter_cons]
      simp [hx]
    · rw [hfold, insertByKeyDesc_filter_ne k x _ v hx, ih, List.filter_cons]
      simp [hx]

/-- The result-building loop keeps exactly the scored records with positive
relevance, in corpus order. -/
theorem shotsLoop_eq_filter (query : PyStr) (db : List CodeShot) :
    shotsLoop (pyLower query) (pyWords (pyLower (pyLower query))) db =
      (db.map (scoreShot query)).filter (fun s => 0 < relKey s) := by
  induction db with
  | nil => rfl
  | cons s rest ih =>
    by_cases h : 0 < relevanceOf (pyLower query) (pyWords (pyLower (pyLower query))) s <;>
      simp [shotsLoop, List.filter_cons, scoreShot, relKey, h, ih]

/-- C6: for every query, `RetrieveCodeShotsTool.execute` returns exactly the
records with computed relevance > 0 (a permutation of the scored, filtered
corpus, which is in insertion order), sorted with pairwise descending
relevance; and the tie-break is stable: for every relevance value `v`, the
results with relevance `v` appear exactly as in the corpus-ordered filtered
list. -/
theorem C6_retrieval_ranking (db : List CodeShot) (query : PyStr) :
    (executeShots db query).Perm
        ((db.map (scoreShot query)).filter (fun s => 0 < relKey s)) ∧
    (executeShots db query).Pairwise (fun a b => relKey b ≤ relKey a) ∧
    (∀ v : Nat,
      (executeShots db query).filter (fun s => relKey s == v) =
        ((db.map (scoreShot query)).filter (fun s => 0 < relKey s)).filter
          (fun s => relKey s == v)) := by
  have hexec : executeShots db query =
      sortByKeyDesc relKey
        ((db.map (scoreShot query)).filter (fun s => 0 < relKey s)) := by
    simp only [executeShots]
    rw [shotsLoop_eq_filter]
  refine ⟨?_, ?_, ?_⟩
  · rw [hexec]; exact sortByKeyDesc_perm _ _
  · rw [hexec]; exact sortByKeyDesc_pairwise _ _
  · intro v
    rw [hexec]
    exact sortByKeyDesc_filter relKey _ v
